import Mathlib

/-!
Verification development for the training-recommendation agent tools
(`training_recommend/tools/weather.py`, `venues.py`, `gear.py`).

The Python tools are shallowly embedded: every pure computation is
translated directly; the external HTTP providers (Google Weather,
OpenWeatherMap, Google Places) are modelled as oracle fields of an
environment record whose value is either an exception (`Except.error`)
or a decoded JSON payload, exactly the two ways a call site can resolve
in the Python code.  Python floats are modelled as rationals, Python
`round` (banker's rounding) as `pyRound`, and Python dicts that the code
iterates over as association lists in insertion order.
-/

namespace TrainingRec

/-- Python `round`: round half to even, on the rational model of floats. -/
def pyRound (q : ℚ) : ℤ :=
  let f := ⌊q⌋
  let r := q - (f : ℚ)
  if r < 1/2 then f
  else if 1/2 < r then f + 1
  else if f % 2 = 0 then f else f + 1

/-- Python `str.lower` (ASCII case folding; CJK characters are unaffected). -/
def strLower (s : String) : String := String.mk (s.data.map Char.toLower)

/-- `sub` occurs as a contiguous subsequence of `hay` (Python `sub in hay` on the
character lists of the two strings). -/
def subIn (sub : List Char) (hay : List Char) : Bool :=
  match hay with
  | [] => sub.isEmpty
  | c :: t => List.isPrefixOf sub (c :: t) || subIn sub t

/-- Python substring membership `sub in hay` for strings. -/
def strContainsSub (hay sub : String) : Bool := subIn sub.data hay.data

/-- Python `sum` over a list of floats. -/
def sumQ (l : List ℚ) : ℚ := l.foldl (· + ·) 0

/-- Mean of a list (`sum(xs) / len(xs)` in the Python code). -/
def meanQ (l : List ℚ) : ℚ := sumQ l / l.length

/-- Python `max` over a nonempty list of floats (0 on `[]`, unreachable in the code). -/
def listMaxQ : List ℚ → ℚ
  | [] => 0
  | x :: xs => xs.foldl max x

/-- Python `min` over a nonempty list of floats (0 on `[]`, unreachable in the code). -/
def listMinQ : List ℚ → ℚ
  | [] => 0
  | x :: xs => xs.foldl min x

/-- Stable insertion of `a` into a list already sorted by `le`: `a` goes after
every element `b` with `le b a`. -/
def insertSorted {α : Type} (le : α → α → Bool) (a : α) : List α → List α
  | [] => [a]
  | b :: bs => if le b a then b :: insertSorted le a bs else a :: b :: bs

/-- Stable sort by the total preorder `le`; models Python `list.sort(key=...)`,
which is a stable sort, so any stable sorting algorithm produces its output. -/
def stableSort {α : Type} (le : α → α → Bool) (l : List α) : List α :=
  l.foldl (fun acc x => insertSorted le x acc) []

/-! ## Weather: condition normalization (`_map_condition_to_chinese`) -/

/-- The `openweather_map` table, in declaration order. -/
def openweatherConditionMap : List (String × String) :=
  [("clear", "晴天"), ("clouds", "多云"), ("rain", "雨天"), ("drizzle", "小雨"),
   ("thunderstorm", "雷雨"), ("snow", "雪天"), ("mist", "雾"), ("fog", "雾"),
   ("haze", "雾")]

/-- The `general_map` table, in declaration order. -/
def generalConditionMap : List (String × String) :=
  [("clear", "晴天"), ("sunny", "晴天"), ("partly cloudy", "多云"), ("cloudy", "多云"),
   ("overcast", "阴天"), ("rain", "雨天"), ("rainy", "雨天"), ("drizzle", "小雨"),
   ("showers", "阵雨"), ("thunderstorm", "雷雨"), ("snow", "雪天"), ("snowy", "雪天"),
   ("mist", "雾"), ("fog", "雾"), ("foggy", "雾")]

/-- Python `{**a, **b}` on insertion-ordered dicts: keys of `a` in order with
values overridden by `b` on collision, then the keys of `b` not in `a`. -/
def dictUpdate (a b : List (String × String)) : List (String × String) :=
  a.map (fun kv => (kv.1, ((b.find? (fun kv2 => kv2.1 == kv.1)).map (fun kv2 => kv2.2)).getD kv.2))
    ++ b.filter (fun kv2 => (a.find? (fun kv => kv.1 == kv2.1)).isNone)

/-- `{**openweather_map, **general_map}` from the substring-match loop. -/
def mergedConditionMap : List (String × String) :=
  dictUpdate openweatherConditionMap generalConditionMap

/-- Exact lookup in an association list (Python `d[k]` / `k in d`). -/
def lookupExact (m : List (String × String)) (k : String) : Option String :=
  (m.find? (fun kv => kv.1 == k)).map (fun kv => kv.2)

/-- `_map_condition_to_chinese`: exact lookup in `openweather_map`, else exact
lookup in `general_map`, else first substring match (either direction) over the
merged table in iteration order, else the default `"多云"`. -/
def mapConditionToChinese (condition : String) : String :=
  let conditionLower := strLower condition
  match lookupExact openweatherConditionMap conditionLower with
  | some v => v
  | none =>
    match lookupExact generalConditionMap conditionLower with
    | some v => v
    | none =>
      match mergedConditionMap.find?
          (fun kv => strContainsSub conditionLower kv.1 || strContainsSub kv.1 conditionLower) with
      | some kv => kv.2
      | none => "多云"

/-- The `icon_map` table of `_get_weather_icon`. -/
def iconMap : List (String × String) :=
  [("晴天", "☀️"), ("多云", "⛅"), ("雨天", "🌧️"), ("小雨", "🌦️"),
   ("雷雨", "⛈️"), ("雪天", "❄️"), ("雾", "🌫️")]

/-- `_get_weather_icon`: icon for a condition, default `"🌤️"`. -/
def getWeatherIcon (condition : String) : String :=
  (lookupExact iconMap condition).getD "🌤️"

/-- `_get_day_of_week_cn`. -/
def dayOfWeekCN (weekday : Nat) : String :=
  ["周一", "周二", "周三", "周四", "周五", "周六", "周日"].getD weekday ""

/-- The fixed vocabulary of normalized condition labels: the values appearing
in the two condition tables together with the default label. -/
def condVocab : List String :=
  ["晴天", "多云", "阴天", "雨天", "小雨", "阵雨", "雷雨", "雪天", "雾"]

/-! ## Weather: data model and the three forecast tiers -/

/-- One entry of the `forecast` list that `get_weather_forecast` returns.
Numeric fields are integers in every return path of the Python code
(either integer literals or `round(...)` results); `date` is the day number
of the calendar date and `dayOfWeek` the rendered weekday label. -/
structure ForecastDay where
  date : Nat
  dayOfWeek : String
  condition : String
  conditionIcon : String
  tempHigh : ℤ
  tempLow : ℤ
  humidity : ℤ
  windSpeed : ℤ
  precipProb : ℤ
  suitableOutdoor : Bool
deriving DecidableEq, Repr

/-- The dictionary `{"status": ..., "forecast": ...}` returned by the weather tool. -/
structure WeatherResult where
  status : String
  forecast : List ForecastDay
deriving DecidableEq, Repr

/-- One decoded day of the Google Weather API response, after the
`dict.get` extraction chains; `none` models a missing JSON field. -/
structure GoogleDay where
  tempHigh : Option ℚ
  tempLow : Option ℚ
  condition : Option String
  humidity : Option ℚ
  windSpeed : Option ℚ
  precipProb : Option ℚ
deriving DecidableEq, Repr

/-- One decoded 3-hourly sample of the OpenWeatherMap response: `date` is the
calendar date (day number) of `datetime.fromtimestamp(item["dt"])`, `windSpeed`
is in m/s, `rain3h`/`snow3h` default to 0 when the keys are absent. -/
structure OwmSample where
  date : Nat
  temp : ℚ
  condMain : String
  humidity : ℚ
  windSpeed : ℚ
  rain3h : ℚ
  snow3h : ℚ
deriving DecidableEq, Repr

/-- Environment of one `get_weather_forecast` call: the credential strings
(`""` models an unset variable or absent tool context) plus the oracle outcome
of each provider HTTP call — `Except.error` models any raised exception
(HTTP error, unsupported-location 404, network failure, malformed payload),
all of which the dispatcher treats alike. -/
structure WeatherEnv where
  ctxMapsKey : String
  envGoogleMapsKey : String
  envMapsKey : String
  googleCall : Except Unit (List GoogleDay)
  envOpenweatherKey : String
  envWeatherKey : String
  owmCall : Except Unit (List OwmSample)
  today : Nat
  todayWeekday : Nat

/-- Effective Google/Maps key: tool-context state first, then
`GOOGLE_MAPS_API_KEY`, then `MAPS_API_KEY` (Python `or` on falsy strings). -/
def effectiveGoogleKey (env : WeatherEnv) : String :=
  if env.ctxMapsKey ≠ "" then env.ctxMapsKey
  else if env.envGoogleMapsKey ≠ "" then env.envGoogleMapsKey
  else env.envMapsKey

/-- Effective OpenWeatherMap key: `OPENWEATHER_API_KEY` or `WEATHER_API_KEY`. -/
def effectiveOwmKey (env : WeatherEnv) : String :=
  if env.envOpenweatherKey ≠ "" then env.envOpenweatherKey
  else env.envWeatherKey

/-- Day `i` of the Google-tier forecast loop in `_get_weather_from_google`:
for `i` within the returned data, normalize the day; otherwise the fixed
defaults (high 22, low 15, condition 多云, humidity 60, wind 10,
precipitation probability 20, suitable `true`). -/
def googleProcessDay (today todayWeekday : Nat) (daysData : List GoogleDay) (i : Nat) :
    ForecastDay :=
  match daysData[i]? with
  | some d =>
    let highTemp := d.tempHigh.getD 22
    let lowTemp := d.tempLow.getD 15
    let condition := d.condition.getD "多云"
    let conditionCn := mapConditionToChinese condition
    let humidity := d.humidity.getD 60
    let windSpeed0 := d.windSpeed.getD 10
    let windSpeed := if windSpeed0 > 50 then windSpeed0 * 3.6 else windSpeed0
    let precipProb := d.precipProb.getD 20
    let suitable := !strContainsSub conditionCn "雨" && !strContainsSub conditionCn "雪"
        && decide (precipProb < 50)
    { date := today + i, dayOfWeek := dayOfWeekCN ((todayWeekday + i) % 7),
      condition := conditionCn, conditionIcon := getWeatherIcon conditionCn,
      tempHigh := pyRound highTemp, tempLow := pyRound lowTemp,
      humidity := pyRound humidity, windSpeed := pyRound windSpeed,
      precipProb := pyRound precipProb, suitableOutdoor := suitable }
  | none =>
    { date := today + i, dayOfWeek := dayOfWeekCN ((todayWeekday + i) % 7),
      condition := "多云", conditionIcon := getWeatherIcon "多云",
      tempHigh := pyRound 22, tempLow := pyRound 15, humidity := pyRound 60,
      windSpeed := pyRound 10, precipProb := pyRound 20, suitableOutdoor := true }

/-- `_get_weather_from_google`: raises iff the HTTP call raised, otherwise
produces exactly `days` processed entries. -/
def getWeatherFromGoogle (env : WeatherEnv) (latitude longitude : ℚ) (days : Nat) :
    Except Unit WeatherResult :=
  env.googleCall.map (fun daysData =>
    { status := "success",
      forecast := (List.range days).map (googleProcessDay env.today env.todayWeekday daysData) })

/-- The per-date accumulator of `_get_weather_from_openweathermap` (the five
parallel lists of one `daily_forecasts[date_key]` dict entry). -/
structure OwmBucket where
  temps : List ℚ
  conditions : List String
  humidity : List ℚ
  windSpeed : List ℚ
  precipitation : List ℚ
deriving DecidableEq, Repr

/-- The freshly created empty bucket. -/
def emptyBucket : OwmBucket := ⟨[], [], [], [], []⟩

/-- Appending one sample to a bucket: wind is converted m/s → km/h here
(`* 3.6`), precipitation is `rain + snow`. -/
def bucketAppend (b : OwmBucket) (s : OwmSample) : OwmBucket :=
  { temps := b.temps ++ [s.temp],
    conditions := b.conditions ++ [s.condMain],
    humidity := b.humidity ++ [s.humidity],
    windSpeed := b.windSpeed ++ [s.windSpeed * 3.6],
    precipitation := b.precipitation ++ [s.rain3h + s.snow3h] }

/-- Inserting one sample into the insertion-ordered dict of buckets. -/
def insertSampleInto : List (Nat × OwmBucket) → OwmSample → List (Nat × OwmBucket)
  | [], s => [(s.date, bucketAppend emptyBucket s)]
  | (k, b) :: rest, s =>
    if k = s.date then (k, bucketAppend b s) :: rest
    else (k, b) :: insertSampleInto rest s

/-- The `daily_forecasts` dict after the bucketing loop. -/
def buildBuckets (samples : List OwmSample) : List (Nat × OwmBucket) :=
  samples.foldl insertSampleInto []

/-- `date_key in daily_forecasts` plus the lookup. -/
def lookupBucket (m : List (Nat × OwmBucket)) (d : Nat) : Option OwmBucket :=
  (m.find? (fun kb => kb.1 == d)).map (fun kb => kb.2)

/-- Key list of `condition_counts` in insertion order (first occurrence). -/
def condKeys (conds : List String) : List String :=
  conds.foldl (fun acc c => if acc.contains c then acc else acc ++ [c]) []

/-- The count of one condition in a bucket. -/
def condCount (conds : List String) (c : String) : Nat :=
  conds.countP (fun x => x == c)

/-- Python `max(keys, key=count)`: the first key (in iteration order)
attaining the maximal count. -/
def firstMax (keys : List String) (count : String → Nat) : String :=
  match keys with
  | [] => ""
  | k :: ks => ks.foldl (fun best c => if count c > count best then c else best) k

/-- `max(condition_counts, key=condition_counts.get)`. -/
def mainCondition (conds : List String) : String :=
  firstMax (condKeys conds) (condCount conds)

/-- Day `i` of the OpenWeatherMap-tier loop: reduce the bucket of the date
`today + i` if one exists, else the fixed defaults. -/
def owmDayFor (samples : List OwmSample) (today todayWeekday : Nat) (i : Nat) :
    ForecastDay :=
  let dateKey := today + i
  match lookupBucket (buildBuckets samples) dateKey with
  | some b =>
    let highTemp := listMaxQ b.temps
    let lowTemp := listMinQ b.temps
    let avgHumidity := sumQ b.humidity / b.humidity.length
    let avgWind := sumQ b.windSpeed / b.windSpeed.length
    let totalPrecip := sumQ b.precipitation
    let mainCond := mainCondition b.conditions
    let conditionCn := mapConditionToChinese mainCond
    let precipProb : ℤ := if totalPrecip > 0 then min (pyRound (totalPrecip * 20)) 100 else 20
    let suitable := (mainCond == "Clear" || mainCond == "Clouds") && decide (totalPrecip < 1)
    { date := dateKey, dayOfWeek := dayOfWeekCN ((todayWeekday + i) % 7),
      condition := conditionCn, conditionIcon := getWeatherIcon conditionCn,
      tempHigh := pyRound highTemp, tempLow := pyRound lowTemp,
      humidity := pyRound avgHumidity, windSpeed := pyRound avgWind,
      precipProb := precipProb, suitableOutdoor := suitable }
  | none =>
    { date := dateKey, dayOfWeek := dayOfWeekCN ((todayWeekday + i) % 7),
      condition := "多云", conditionIcon := getWeatherIcon "多云",
      tempHigh := pyRound 22, tempLow := pyRound 15, humidity := pyRound 60,
      windSpeed := pyRound 10, precipProb := 20, suitableOutdoor := true }

/-- `_get_weather_from_openweathermap`: raises iff the HTTP call raised,
otherwise buckets the samples by calendar date and produces `days` entries. -/
def getWeatherFromOpenweathermap (env : WeatherEnv) (latitude longitude : ℚ) (days : Nat) :
    Except Unit WeatherResult :=
  env.owmCall.map (fun samples =>
    { status := "success",
      forecast := (List.range days).map (owmDayFor samples env.today env.todayWeekday) })

/-- The fixed cyclic condition sequence of `_get_mock_weather_forecast`. -/
def mockConditions : List String := ["晴天", "多云", "晴天", "小雨", "多云", "晴天", "多云"]

/-- Day `i` of the mock forecast: condition from the cyclic sequence, base
temperature 20 with variation `(i % 3) * 2 - 2`. -/
def mockDay (today todayWeekday : Nat) (i : Nat) : ForecastDay :=
  let condition := mockConditions.getD (i % mockConditions.length) ""
  let tempVariation : ℤ := ((i % 3 : ℕ) : ℤ) * 2 - 2
  { date := today + i, dayOfWeek := dayOfWeekCN ((todayWeekday + i) % 7),
    condition := condition, conditionIcon := getWeatherIcon condition,
    tempHigh := 20 + tempVariation + 5, tempLow := 20 + tempVariation,
    humidity := 60 + ((i % 3 : ℕ) : ℤ) * 5, windSpeed := 8 + ((i % 3 : ℕ) : ℤ) * 2,
    precipProb := if strContainsSub condition "雨" then 70 else 20,
    suitableOutdoor := !strContainsSub condition "雨" }

/-- `_get_mock_weather_forecast`. -/
def getMockWeatherForecast (today todayWeekday : Nat) (latitude longitude : ℚ)
    (days : Nat) : WeatherResult :=
  { status := "success", forecast := (List.range days).map (mockDay today todayWeekday) }

/-- `get_weather_forecast`: clamp `days` to [1,7], then try the tiers
Google → OpenWeatherMap → mock, where a tier is skipped when its credential
is missing and abandoned when its call raises. -/
def getWeatherForecast (env : WeatherEnv) (latitude longitude : ℚ) (days : ℤ) :
    WeatherResult :=
  let d : Nat := (min (max days 1) 7).toNat
  let afterGoogle : WeatherResult :=
    if effectiveOwmKey env ≠ "" then
      match getWeatherFromOpenweathermap env latitude longitude d with
      | .ok r => r
      | .error _ => getMockWeatherForecast env.today env.todayWeekday latitude longitude d
    else getMockWeatherForecast env.today env.todayWeekday latitude longitude d
  if effectiveGoogleKey env ≠ "" then
    match getWeatherFromGoogle env latitude longitude d with
    | .ok r => r
    | .error _ => afterGoogle
  else afterGoogle

/-! ## Venues (`search_nearby_venues`) -/

/-- One place of a Google Places `places_nearby` response. `placeId = ""`
models a missing or empty `place_id` (both falsy in Python); `none` models an
absent optional field. -/
structure Place where
  placeId : String
  name : Option String
  vicinity : Option String
  formattedAddress : Option String
  lat : ℚ
  lng : ℚ
  rating : Option ℚ
  types : List String
deriving DecidableEq, Repr

/-- One `venue_info` dict built by the search loop. -/
structure Venue where
  name : String
  address : String
  distance : String
  distanceMeters : ℤ
  rating : ℚ
  placeId : String
  types : List String
  lat : ℚ
  lng : ℚ
deriving DecidableEq, Repr

/-- The result dictionary of `search_nearby_venues`. -/
structure VenueResult where
  status : String
  venues : List Venue
  sportType : Option String
  location : Option (ℚ × ℚ)
  errorMessage : Option String
deriving DecidableEq, Repr

/-- Environment of one `search_nearby_venues` call.  `placesCall` is the
oracle for `gmaps.places_nearby` per place type (`Except.error` models a
raised exception, absorbed per category); `clientError` models
`googlemaps.Client` or any other code in the outer `try` raising, which
produces the error result; `calcDist` models `_calculate_distance`, the
haversine great-circle formula — floating-point trigonometry, kept abstract,
with its two coordinate pairs as arguments. -/
structure VenueEnv where
  ctxMapsKey : String
  envGoogleMapsKey : String
  envMapsKey : String
  clientError : Option String
  placesCall : String → Except Unit (List Place)
  calcDist : ℚ → ℚ → ℚ → ℚ → ℚ

/-- Effective Maps key of the venues tool (same lookup chain as the weather tool). -/
def effectiveVenueKey (env : VenueEnv) : String :=
  if env.ctxMapsKey ≠ "" then env.ctxMapsKey
  else if env.envGoogleMapsKey ≠ "" then env.envGoogleMapsKey
  else env.envMapsKey

/-- Python `int()` truncation toward zero on the rational model. -/
def ratTrunc (q : ℚ) : ℤ := if q < 0 then -⌊-q⌋ else ⌊q⌋

/-- `_format_distance`: integer metres below 1000, else kilometres to one
decimal place (the decimal digit rounded as Python float formatting rounds). -/
def formatDistance (d : ℚ) : String :=
  if d < 1000 then toString (ratTrunc d) ++ "米"
  else
    let tenths := pyRound (d / 1000 * 10)
    toString (tenths / 10) ++ "." ++ toString (tenths % 10) ++ "公里"

/-- The `venue_info` dict built for one place: name defaults to 未知地点,
address is `vicinity` else `formatted_address` else `""`, the distance is
computed by the tool itself, rating defaults to 0. -/
def processPlace (latitude longitude : ℚ) (calcDist : ℚ → ℚ → ℚ → ℚ → ℚ)
    (p : Place) : Venue :=
  let distance := calcDist latitude longitude p.lat p.lng
  { name := p.name.getD "未知地点",
    address := (p.vicinity.orElse (fun _ => p.formattedAddress)).getD "",
    distance := formatDistance distance,
    distanceMeters := pyRound distance,
    rating := p.rating.getD 0,
    placeId := p.placeId,
    types := p.types,
    lat := p.lat, lng := p.lng }

/-- The body of the loop over one category's places: state is
`(all_venues, seen_place_ids)`; a place is added when its id is nonempty and
unseen. -/
def addPlaceStep (latitude longitude : ℚ) (calcDist : ℚ → ℚ → ℚ → ℚ → ℚ)
    (st : List Venue × List String) (p : Place) : List Venue × List String :=
  if p.placeId ≠ "" && !st.2.contains p.placeId then
    (st.1 ++ [processPlace latitude longitude calcDist p], st.2 ++ [p.placeId])
  else st

/-- The inner loop over one category's places. -/
def addPlaces (latitude longitude : ℚ) (calcDist : ℚ → ℚ → ℚ → ℚ → ℚ)
    (st : List Venue × List String) (places : List Place) :
    List Venue × List String :=
  places.foldl (addPlaceStep latitude longitude calcDist) st

/-- The body of the outer loop over place types: a raising category
contributes nothing. -/
def collectStep (env : VenueEnv) (latitude longitude : ℚ)
    (st : List Venue × List String) (pt : String) : List Venue × List String :=
  match env.placesCall pt with
  | .ok places => addPlaces latitude longitude env.calcDist st places
  | .error _ => st

/-- The outer loop over place types. -/
def collectVenues (env : VenueEnv) (latitude longitude : ℚ)
    (placeTypes : List String) : List Venue :=
  (placeTypes.foldl (collectStep env latitude longitude) ([], [])).1

/-- The sort key comparison `(distance_meters, -rating)` of the venue sort:
`a` may precede `b` iff `key a ≤ key b` lexicographically. -/
def venueLE (a b : Venue) : Bool :=
  decide (a.distanceMeters < b.distanceMeters)
    || (a.distanceMeters == b.distanceMeters && decide (b.rating ≤ a.rating))

/-- The `sport_mapping` table of `_map_sport_to_place_types`, in declaration
order. -/
def sportPlaceMapping : List (String × List String) :=
  [("长跑", ["park", "route"]),
   ("跑步", ["park", "route"]),
   ("running", ["park", "route"]),
   ("游泳", ["swimming_pool", "gym"]),
   ("swimming", ["swimming_pool", "gym"]),
   ("力量训练", ["gym", "health"]),
   ("健身", ["gym", "health"]),
   ("gym", ["gym", "health"]),
   ("瑜伽", ["gym", "yoga"]),
   ("yoga", ["gym", "yoga"]),
   ("骑行", ["park", "route", "bicycle_store"]),
   ("自行车", ["park", "route", "bicycle_store"]),
   ("cycling", ["park", "route", "bicycle_store"]),
   ("篮球", ["basketball_court", "gym"]),
   ("羽毛球", ["gym", "sports_complex"]),
   ("爬山", ["park", "natural_feature"])]

/-- `_map_sport_to_place_types`: exact match, then substring match in either
direction on lower-cased keys in iteration order, default `["gym", "park"]`. -/
def mapSportToPlaceTypes (sportType : String) : List String :=
  let sportLower := strLower sportType
  match sportPlaceMapping.find? (fun kv => kv.1 == sportType) with
  | some kv => kv.2
  | none =>
    match sportPlaceMapping.find? (fun kv =>
        strContainsSub sportLower (strLower kv.1)
          || strContainsSub (strLower kv.1) sportLower) with
    | some kv => kv.2
    | none => ["gym", "park"]

/-- `search_nearby_venues`: explicit error result when no credential is
configured or the client raises; otherwise search each mapped category,
deduplicate by place id, sort by `(distance, -rating)`, truncate. -/
def searchNearbyVenues (env : VenueEnv) (latitude longitude : ℚ)
    (sportType : String) (radius : ℤ) (maxResults : Nat) : VenueResult :=
  if effectiveVenueKey env = "" then
    { status := "error", venues := [], sportType := none, location := none,
      errorMessage := some "Google Maps API key not configured" }
  else
    match env.clientError with
    | some msg =>
      { status := "error", venues := [], sportType := none, location := none,
        errorMessage := some msg }
    | none =>
      let placeTypes := mapSportToPlaceTypes sportType
      let allVenues := collectVenues env latitude longitude placeTypes
      let venues := (stableSort venueLE allVenues).take maxResults
      { status := "success", venues := venues, sportType := some sportType,
        location := some (latitude, longitude), errorMessage := none }

/-! ## Gear (`get_recommended_gear`) -/

/-- One gear set of the static `GEAR_MAP`. -/
structure GearSet where
  shoes : List String
  clothing : List String
  accessories : List String
deriving DecidableEq, Repr

/-- The result dictionary of `get_recommended_gear`. -/
structure GearResult where
  status : String
  sportType : String
  recommendedGear : GearSet
deriving DecidableEq, Repr

/-- `GEAR_MAP`, in declaration order. -/
def gearMap : List (String × GearSet) :=
  [("长跑", ⟨["跑步鞋", "运动鞋"], ["速干T恤", "运动短裤", "运动袜"], ["运动手表", "水壶", "毛巾"]⟩),
   ("跑步", ⟨["跑步鞋", "运动鞋"], ["速干T恤", "运动短裤", "运动袜"], ["运动手表", "水壶", "毛巾"]⟩),
   ("running", ⟨["跑步鞋", "运动鞋"], ["速干T恤", "运动短裤", "运动袜"], ["运动手表", "水壶", "毛巾"]⟩),
   ("游泳", ⟨[], ["泳衣", "泳帽", "泳镜", "浴巾"], ["防水袋", "拖鞋", "洗护用品"]⟩),
   ("swimming", ⟨[], ["泳衣", "泳帽", "泳镜", "浴巾"], ["防水袋", "拖鞋", "洗护用品"]⟩),
   ("力量训练", ⟨["训练鞋"], ["运动背心", "运动长裤", "运动手套"], ["水壶", "毛巾", "护腕"]⟩),
   ("健身", ⟨["训练鞋"], ["运动背心", "运动长裤", "运动手套"], ["水壶", "毛巾", "护腕"]⟩),
   ("gym", ⟨["训练鞋"], ["运动背心", "运动长裤", "运动手套"], ["水壶", "毛巾", "护腕"]⟩),
   ("瑜伽", ⟨[], ["瑜伽服", "瑜伽裤", "运动内衣"], ["瑜伽垫", "瑜伽砖", "瑜伽带"]⟩),
   ("yoga", ⟨[], ["瑜伽服", "瑜伽裤", "运动内衣"], ["瑜伽垫", "瑜伽砖", "瑜伽带"]⟩),
   ("骑行", ⟨["骑行鞋"], ["骑行服", "骑行裤", "头盔"], ["水壶", "手套", "护目镜"]⟩),
   ("自行车", ⟨["骑行鞋"], ["骑行服", "骑行裤", "头盔"], ["水壶", "手套", "护目镜"]⟩),
   ("cycling", ⟨["骑行鞋"], ["骑行服", "骑行裤", "头盔"], ["水壶", "手套", "护目镜"]⟩),
   ("篮球", ⟨["篮球鞋"], ["运动背心", "运动短裤"], ["护膝", "护腕", "水壶"]⟩),
   ("羽毛球", ⟨["羽毛球鞋"], ["运动T恤", "运动短裤"], ["羽毛球拍", "羽毛球", "护腕"]⟩),
   ("爬山", ⟨["登山鞋"], ["速干衣", "冲锋衣", "运动长裤"], ["登山杖", "背包", "水壶"]⟩)]

/-- The fixed generic default gear set. -/
def defaultGear : GearSet :=
  ⟨["运动鞋"], ["运动服", "运动裤"], ["水壶", "毛巾"]⟩

/-- One candidate key matches a sport label by the three-stage strategy:
exact, exact on the lower-cased label, or substring in either direction on
lower-cased strings. -/
def gearKeyMatches (sportType key : String) : Bool :=
  key == sportType || key == strLower sportType
    || strContainsSub (strLower sportType) (strLower key)
    || strContainsSub (strLower key) (strLower sportType)

/-- `get_recommended_gear`: exact lookup on the label then on its lower-cased
form (Python `get(a) or get(b)`; every table value is truthy), else the first
keyword match in table iteration order, else the generic default. -/
def getRecommendedGear (sportType : String) : GearResult :=
  let sportLower := strLower sportType
  let exact := (gearMap.find? (fun kv => kv.1 == sportType)).map (fun kv => kv.2)
  let exactLower := (gearMap.find? (fun kv => kv.1 == sportLower)).map (fun kv => kv.2)
  let gear0 := exact.orElse (fun _ => exactLower)
  let gear1 :=
    match gear0 with
    | some g => some g
    | none =>
      (gearMap.find? (fun (kv : String × GearSet) =>
        strContainsSub sportLower (strLower kv.1)
          || strContainsSub (strLower kv.1) sportLower)).map
        (fun (kv : String × GearSet) => kv.2)
  { status := "success", sportType := sportType,
    recommendedGear := gear1.getD defaultGear }

/-! ## Specification-side auxiliary definitions and concrete scenarios -/

/-- The stream of candidate venues in search order: for each place type in
order, the processed venues of that category's successful call (a raising
category contributes nothing), before deduplication. -/
def venueStream (env : VenueEnv) (latitude longitude : ℚ) : List String → List Venue
  | [] => []
  | pt :: rest =>
    (match env.placesCall pt with
     | .ok places =>
       (places.filter (fun p => p.placeId ≠ "")).map
         (processPlace latitude longitude env.calcDist)
     | .error _ => []) ++ venueStream env latitude longitude rest

/-- Keep the first venue of each place id not already in `seen`
(specification of the search loop's `seen_place_ids` deduplication). -/
def dedupSeen : List Venue → List String → List Venue
  | [], _ => []
  | v :: vs, seen =>
    if seen.contains v.placeId then dedupSeen vs seen
    else v :: dedupSeen vs (seen ++ [v.placeId])

/-- A no-credential weather environment in which every provider call would
fail (its oracle outcomes are never reached). -/
def mockEnv : WeatherEnv :=
  ⟨"", "", "", Except.error (), "", "", Except.error (), 0, 0⟩

/-- Two 3-hourly samples on the same calendar date 100: temps 10/21 °C,
conditions Clear/Clouds, humidity 40/60, wind 5/10 m/s, 3 mm precipitation
in total. -/
def owmSamples : List OwmSample :=
  [⟨100, 10, "Clear", 40, 5, 0, 0⟩, ⟨100, 21, "Clouds", 60, 10, 2, 1⟩]

/-- A weather environment whose OpenWeatherMap call returns `owmSamples`,
with `today` = date 100. -/
def owmEnv : WeatherEnv :=
  ⟨"", "", "", Except.error (), "k", "", Except.ok owmSamples, 100, 0⟩

/-- Venue A of the ordering scenario: 500 m away, rating 4.0. -/
def placeA : Place := ⟨"A", some "A", some "addr A", none, 500, 0, some 4, []⟩

/-- Venue B of the ordering scenario: 500 m away, rating 4.5. -/
def placeB : Place := ⟨"B", some "B", some "addr B", none, 500, 0, some (4.5 : ℚ), []⟩

/-- Venue C of the ordering scenario: 300 m away, rating 2.0. -/
def placeC : Place := ⟨"C", some "C", some "addr C", none, 300, 0, some 2, []⟩

/-- Venue environment of the ordering scenario: the park category returns
A, B, C; the route category returns A again (a duplicate id); the distance
function reads the distance planted in the place's latitude. -/
def venueEnvC6 : VenueEnv :=
  ⟨"key", "", "",
   none,
   fun pt => if pt = "park" then .ok [placeA, placeB, placeC]
             else if pt = "route" then .ok [placeA] else .ok [],
   fun _ _ plat _ => plat⟩

/-- A venue environment with no credential configured anywhere. -/
def venueEnvNoKey : VenueEnv :=
  ⟨"", "", "", none, fun _ => .error (), fun _ _ _ _ => 0⟩

/-! ## Lemmas on the condition normalizer -/

theorem lookupExact_some_mem {m : List (String × String)} {k v : String}
    (h : lookupExact m k = some v) : ∃ kv, kv ∈ m ∧ kv.2 = v := by
  unfold lookupExact at h
  rcases Option.map_eq_some'.mp h with ⟨kv, hfind, hv⟩
  exact ⟨kv, List.mem_of_find?_eq_some hfind, hv⟩

theorem openweather_values_vocab :
    ∀ kv ∈ openweatherConditionMap, kv.2 ∈ condVocab := by decide

theorem general_values_vocab :
    ∀ kv ∈ generalConditionMap, kv.2 ∈ condVocab := by decide

theorem merged_values_vocab :
    ∀ kv ∈ mergedConditionMap, kv.2 ∈ condVocab := by decide

/-- Every output of the condition normalizer lies in the fixed vocabulary. -/
theorem mapConditionToChinese_mem_vocab (c : String) :
    mapConditionToChinese c ∈ condVocab := by
  unfold mapConditionToChinese
  cases h1 : lookupExact openweatherConditionMap (strLower c) with
  | some v =>
    obtain ⟨kv, hm, hv⟩ := lookupExact_some_mem h1
    simp only [h1]
    simpa [hv] using openweather_values_vocab kv hm
  | none =>
    simp only [h1]
    cases h2 : lookupExact generalConditionMap (strLower c) with
    | some v =>
      obtain ⟨kv, hm, hv⟩ := lookupExact_some_mem h2
      simp only [h2]
      simpa [hv] using general_values_vocab kv hm
    | none =>
      simp only [h2]
      cases h3 : mergedConditionMap.find?
          (fun kv => strContainsSub (strLower c) kv.1
            || strContainsSub kv.1 (strLower c)) with
      | some kv =>
        simp only [h3]
        simpa using merged_values_vocab kv (List.mem_of_find?_eq_some h3)
      | none =>
        simp only [h3]
        decide

theorem vocab_renormalizes_to_default :
    ∀ l ∈ condVocab, mapConditionToChinese l = "多云" := by decide

theorem vocab_icon_entries :
    ∀ l ∈ condVocab, l ≠ "阴天" → l ≠ "阵雨" →
      (lookupExact iconMap l).isSome = true := by decide

/-! ## Claims C8, C9 (condition normalizer), C10, C7 (fuzzy lookups) -/

/-- Claim C8, counterexample: normalization is not idempotent on its own
output — the normalized label of "clear" is 晴天, which re-normalizes to the
default 多云, not to itself. -/
theorem C8_counterexample :
    mapConditionToChinese (mapConditionToChinese "clear")
      ≠ mapConditionToChinese "clear" := by decide

/-- Claim C8, amended: re-normalizing any output of the condition normalizer
yields the default label 多云 (whose icon is ⛅); consequently 多云 is the
only label on which the normalizer is idempotent, and it maps to itself. -/
theorem C8_renormalize_constant (c : String) :
    mapConditionToChinese (mapConditionToChinese c) = "多云" ∧
    getWeatherIcon (mapConditionToChinese (mapConditionToChinese c)) = "⛅" ∧
    mapConditionToChinese "多云" = "多云" := by
  have h := vocab_renormalizes_to_default _ (mapConditionToChinese_mem_vocab c)
  exact ⟨h, by rw [h]; decide, by decide⟩

/-- Claim C9, counterexample: the normalizer maps "overcast" to 阴天, a label
with no entry of its own in the icon table, so the generic default icon 🌤️
is used for a label produced by the normalizer. -/
theorem C9_counterexample :
    mapConditionToChinese "overcast" = "阴天" ∧
    lookupExact iconMap "阴天" = none ∧
    getWeatherIcon "阴天" = "🌤️" := by decide

/-- Claim C9, amended: every label in the range of the condition normalizer
other than 阴天 (from "overcast") and 阵雨 (from "showers") has its own entry
in the icon table; for those two outputs the generic default icon is used. -/
theorem C9_icon_closure (c : String) (h1 : mapConditionToChinese c ≠ "阴天")
    (h2 : mapConditionToChinese c ≠ "阵雨") :
    (lookupExact iconMap (mapConditionToChinese c)).isSome = true :=
  vocab_icon_entries _ (mapConditionToChinese_mem_vocab c) h1 h2

/-- Claim C9 witness: at input "clear" the hypotheses hold and the normalized
label 晴天 has its own icon entry. -/
theorem C9_witness :
    mapConditionToChinese "clear" ≠ "阴天" ∧
    mapConditionToChinese "clear" ≠ "阵雨" ∧
    (lookupExact iconMap (mapConditionToChinese "clear")).isSome = true :=
  ⟨by decide, by decide, C9_icon_closure "clear" (by decide) (by decide)⟩

/-- Claim C10: the empty sport label substring-matches the first table key
(the empty string is a substring of every key), so the gear lookup returns
the 长跑 (long-distance-running) gear set — not the generic default — and the
sport-to-place-type mapping returns ["park", "route"] — not its
["gym", "park"] default. -/
theorem C10_empty_label :
    getRecommendedGear "" =
      { status := "success", sportType := "",
        recommendedGear :=
          ⟨["跑步鞋", "运动鞋"], ["速干T恤", "运动短裤", "运动袜"],
           ["运动手表", "水壶", "毛巾"]⟩ } ∧
    (getRecommendedGear "").recommendedGear ≠ defaultGear ∧
    mapSportToPlaceTypes "" = ["park", "route"] ∧
    mapSportToPlaceTypes "" ≠ ["gym", "park"] :=
  ⟨by decide, by decide, by decide, by decide⟩

/-- Claim C7: the gear lookup is total and always succeeds — the status is
"success" for every sport label, and whenever no table key matches by the
exact / case-insensitive / substring strategy, the result is the fixed
generic default gear set. -/
theorem C7_gear_total (sportType : String) :
    (getRecommendedGear sportType).status = "success" ∧
    (gearMap.all (fun kv => !gearKeyMatches sportType kv.1) = true →
      (getRecommendedGear sportType).recommendedGear = defaultGear) := by
  constructor
  · rfl
  · intro hall
    have hmem : ∀ kv ∈ gearMap, gearKeyMatches sportType kv.1 = false := by
      intro kv hkv
      have := List.all_eq_true.mp hall kv hkv
      simpa using this
    have h1 : gearMap.find? (fun kv => kv.1 == sportType) = none := by
      rw [List.find?_eq_none]
      intro kv hkv hbeq
      have := hmem kv hkv
      unfold gearKeyMatches at this
      simp [hbeq] at this
    have h2 : gearMap.find? (fun kv => kv.1 == strLower sportType) = none := by
      rw [List.find?_eq_none]
      intro kv hkv hbeq
      have := hmem kv hkv
      unfold gearKeyMatches at this
      simp [hbeq] at this
    have h3 : gearMap.find? (fun (kv : String × GearSet) =>
        strContainsSub (strLower sportType) (strLower kv.1)
          || strContainsSub (strLower kv.1) (strLower sportType)) = none := by
      rw [List.find?_eq_none]
      intro kv hkv hbeq
      have := hmem kv hkv
      unfold gearKeyMatches at this
      rcases (Bool.or_eq_true _ _).mp hbeq with hx | hx <;> simp [hx] at this
    unfold getRecommendedGear
    simp [h1, h2, h3, Option.orElse]

/-- Claim C7 witness: the unrecognized label "underwater hockey" matches no
table key and receives the generic default gear set. -/
theorem C7_witness :
    gearMap.all (fun kv => !gearKeyMatches "underwater hockey" kv.1) = true ∧
    (getRecommendedGear "underwater hockey").recommendedGear = defaultGear :=
  ⟨by decide, (C7_gear_total "underwater hockey").2 (by decide)⟩

/-! ## Lemmas on the weather dispatcher: claims C1, C2, C3 -/

theorem googleProcessDay_condition_mem (t w : Nat) (dd : List GoogleDay) (i : Nat) :
    (googleProcessDay t w dd i).condition ∈ condVocab := by
  unfold googleProcessDay
  cases h : dd[i]? with
  | some d =>
    simp only [h]
    exact mapConditionToChinese_mem_vocab _
  | none =>
    simp only [h]
    decide

theorem owmDayFor_condition_mem (samples : List OwmSample) (t w i : Nat) :
    (owmDayFor samples t w i).condition ∈ condVocab := by
  unfold owmDayFor
  cases h : lookupBucket (buildBuckets samples) (t + i) with
  | some b =>
    simp only [h]
    exact mapConditionToChinese_mem_vocab _
  | none =>
    simp only [h]
    decide

theorem mockConditions_mem_vocab : ∀ x ∈ mockConditions, x ∈ condVocab := by decide

theorem mockDay_condition_mem (t w i : Nat) :
    (mockDay t w i).condition ∈ condVocab := by
  unfold mockDay
  have hlt : i % mockConditions.length < mockConditions.length :=
    Nat.mod_lt _ (by decide)
  simp only [List.getD_eq_getElem?_getD, List.getElem?_eq_getElem hlt]
  exact mockConditions_mem_vocab _ (List.getElem_mem hlt)

/-- Shape of the dispatcher's result: whichever tier answers, the result is a
success record whose forecast is the clamped-day range mapped through one
per-day constructor whose conditions lie in the fixed vocabulary. -/
theorem getWeatherForecast_shape (env : WeatherEnv) (lat lon : ℚ) (days : ℤ) :
    ∃ f : Nat → ForecastDay,
      getWeatherForecast env lat lon days =
        { status := "success",
          forecast := (List.range ((min (max days 1) 7).toNat)).map f } ∧
      ∀ i, (f i).condition ∈ condVocab := by
  unfold getWeatherForecast
  by_cases hg : effectiveGoogleKey env = ""
  · simp only [hg, ne_eq, not_true_eq_false, if_false]
    by_cases ho : effectiveOwmKey env = ""
    · simp only [ho, ne_eq, not_true_eq_false, if_false]
      exact ⟨mockDay env.today env.todayWeekday, rfl,
        fun i => mockDay_condition_mem _ _ i⟩
    · simp only [ne_eq, ho, not_false_eq_true, if_true]
      cases hc : env.owmCall with
      | ok samples =>
        simp only [getWeatherFromOpenweathermap, hc, Except.map]
        exact ⟨owmDayFor samples env.today env.todayWeekday, rfl,
          fun i => owmDayFor_condition_mem _ _ _ i⟩
      | error e =>
        simp only [getWeatherFromOpenweathermap, hc, Except.map]
        exact ⟨mockDay env.today env.todayWeekday, rfl,
          fun i => mockDay_condition_mem _ _ i⟩
  · simp only [ne_eq, hg, not_false_eq_true, if_true]
    cases hcg : env.googleCall with
    | ok g =>
      simp only [getWeatherFromGoogle, hcg, Except.map]
      exact ⟨googleProcessDay env.today env.todayWeekday g, rfl,
        fun i => googleProcessDay_condition_mem _ _ _ i⟩
    | error e =>
      simp only [getWeatherFromGoogle, hcg, Except.map]
      by_cases ho : effectiveOwmKey env = ""
      · simp only [ho, ne_eq, not_true_eq_false, if_false]
        exact ⟨mockDay env.today env.todayWeekday, rfl,
          fun i => mockDay_condition_mem _ _ i⟩
      · simp only [ne_eq, ho, not_false_eq_true, if_true]
        cases hc : env.owmCall with
        | ok samples =>
          simp only [getWeatherFromOpenweathermap, hc, Except.map]
          exact ⟨owmDayFor samples env.today env.todayWeekday, rfl,
            fun i => owmDayFor_condition_mem _ _ _ i⟩
        | error e2 =>
          simp only [getWeatherFromOpenweathermap, hc, Except.map]
          exact ⟨mockDay env.today env.todayWeekday, rfl,
            fun i => mockDay_condition_mem _ _ i⟩

/-- Claim C1: for every credential configuration and every outcome of the
primary and secondary provider calls (modelled by the environment's oracles,
including every failure mode), and for every latitude, longitude and `days`,
the weather tool returns status "success" with a nonempty forecast list —
errors are absorbed by falling through the tiers, never surfaced. -/
theorem C1_weather_never_fails (env : WeatherEnv) (lat lon : ℚ) (days : ℤ) :
    (getWeatherForecast env lat lon days).status = "success" ∧
    1 ≤ (getWeatherForecast env lat lon days).forecast.length := by
  obtain ⟨f, heq, -⟩ := getWeatherForecast_shape env lat lon days
  rw [heq]
  refine ⟨rfl, ?_⟩
  simp only [List.length_map, List.length_range]
  omega

/-- Claim C2: the forecast list always has exactly `min(max(days,1),7)` entries
— out-of-range day counts behave like the nearest boundary, and the length
never depends on how much data the chosen tier returned — and every entry's
condition label belongs to the fixed normalized vocabulary (each entry also
carries its Boolean outdoor-suitability flag, `ForecastDay.suitableOutdoor`). -/
theorem C2_forecast_length_and_vocab (env : WeatherEnv) (lat lon : ℚ) (days : ℤ) :
    (getWeatherForecast env lat lon days).forecast.length
      = (min (max days 1) 7).toNat ∧
    (getWeatherForecast env lat lon days).forecast.all
      (fun e => decide (e.condition ∈ condVocab)) = true := by
  obtain ⟨f, heq, hvocab⟩ := getWeatherForecast_shape env lat lon days
  rw [heq]
  refine ⟨by simp, ?_⟩
  rw [List.all_eq_true]
  intro e he
  rcases List.mem_map.mp he with ⟨i, -, rfl⟩
  exact decide_eq_true (hvocab i)

/-- Claim C3, counterexample: with no credentials configured, the 3-day
forecast for (40.0, -73.0) has high temperatures 23, 25, 27 — the variation is
`(i % 3) * 2 - 2`, not the claimed 25, 27, 29. -/
theorem C3_counterexample :
    (getWeatherForecast mockEnv 40 (-73) 3).forecast.map ForecastDay.tempHigh
      ≠ [25, 27, 29] := by decide

/-- Claim C3, amended: with no credentials configured, the 3-day forecast for
(40.0, -73.0) has exactly 3 entries whose conditions are the first three
elements of the fixed cyclic mock sequence (晴天, 多云, 晴天 — sunny, cloudy,
sunny), whose high temperatures are 23, 25, 27 (formula
`20 + ((i % 3) * 2 - 2) + 5`), and whose outdoor-suitable flags are all true. -/
theorem C3_mock_scenario (env : WeatherEnv)
    (hg : effectiveGoogleKey env = "") (ho : effectiveOwmKey env = "") :
    (getWeatherForecast env 40 (-73) 3).forecast.map ForecastDay.condition
      = ["晴天", "多云", "晴天"] ∧
    (getWeatherForecast env 40 (-73) 3).forecast.map ForecastDay.tempHigh
      = [23, 25, 27] ∧
    (getWeatherForecast env 40 (-73) 3).forecast.map ForecastDay.suitableOutdoor
      = [true, true, true] := by
  have hmock : getWeatherForecast env 40 (-73) 3 =
      getMockWeatherForecast env.today env.todayWeekday 40 (-73) 3 := by
    unfold getWeatherForecast
    simp only [hg, ho, ne_eq, not_true_eq_false, if_false]
    norm_num
    rfl
  rw [hmock]
  unfold getMockWeatherForecast
  rw [show List.range 3 = [0, 1, 2] from rfl]
  refine ⟨?_, ?_, ?_⟩ <;> simp [mockDay, mockConditions] <;> decide

/-- Claim C3 witness: the concrete no-credential environment `mockEnv`
satisfies the hypotheses and exhibits the amended values. -/
theorem C3_witness :
    effectiveGoogleKey mockEnv = "" ∧ effectiveOwmKey mockEnv = "" ∧
    ((getWeatherForecast mockEnv 40 (-73) 3).forecast.map ForecastDay.condition
        = ["晴天", "多云", "晴天"] ∧
     (getWeatherForecast mockEnv 40 (-73) 3).forecast.map ForecastDay.tempHigh
        = [23, 25, 27] ∧
     (getWeatherForecast mockEnv 40 (-73) 3).forecast.map ForecastDay.suitableOutdoor
        = [true, true, true]) :=
  ⟨by decide, by decide, C3_mock_scenario mockEnv (by decide) (by decide)⟩

/-! ## Claim C4: the OpenWeatherMap bucketing and reduction -/

theorem pyRound10 : pyRound 10 = 10 := by norm_num [pyRound]

theorem pyRound15 : pyRound 15 = 15 := by norm_num [pyRound]

theorem pyRound20 : pyRound 20 = 20 := by norm_num [pyRound]

theorem pyRound22 : pyRound 22 = 22 := by norm_num [pyRound]

theorem pyRound60 : pyRound 60 = 60 := by norm_num [pyRound]

theorem lookupBucket_nil (d : Nat) : lookupBucket [] d = none := rfl

theorem lookupBucket_cons (k : Nat) (b : OwmBucket) (rest : List (Nat × OwmBucket))
    (d : Nat) :
    lookupBucket ((k, b) :: rest) d = if k = d then some b else lookupBucket rest d := by
  by_cases h : k = d <;> simp [lookupBucket, List.find?_cons, h]

/-- Inserting one sample only changes the bucket of its own date, where it
appends (creating the bucket if needed). -/
theorem lookupBucket_insert (m : List (Nat × OwmBucket)) (s : OwmSample) (d : Nat) :
    lookupBucket (insertSampleInto m s) d =
      if s.date = d then
        some (bucketAppend ((lookupBucket m d).getD emptyBucket) s)
      else lookupBucket m d := by
  induction m with
  | nil =>
    by_cases h : s.date = d <;>
      simp [insertSampleInto, lookupBucket_cons, lookupBucket_nil, h]
  | cons kb rest ih =>
    obtain ⟨k, b⟩ := kb
    simp only [insertSampleInto]
    by_cases hk : k = s.date
    · rw [if_pos hk]
      simp only [lookupBucket_cons]
      by_cases hkd : k = d
      · have hsd : s.date = d := by rw [← hk]; exact hkd
        simp [hkd, hsd]
      · have hsd : ¬ s.date = d := by rw [← hk]; exact hkd
        simp [hkd, hsd]
    · rw [if_neg hk]
      simp only [lookupBucket_cons]
      by_cases hkd : k = d
      · have hsd : ¬ s.date = d := by
          intro h
          exact hk (by rw [hkd, h])
        simp [hkd, hsd]
      · simp [hkd, ih]

/-- The bucket dict built by folding the samples, observed at one date: the
bucket exists iff some sample has that date, and then it is the
`bucketAppend`-fold of exactly the samples of that date, in order. -/
theorem lookupBucket_foldl (samples : List OwmSample) (m : List (Nat × OwmBucket))
    (d : Nat) :
    lookupBucket (samples.foldl insertSampleInto m) d =
      if (samples.filter (fun s => s.date == d)).isEmpty then lookupBucket m d
      else some ((samples.filter (fun s => s.date == d)).foldl bucketAppend
        ((lookupBucket m d).getD emptyBucket)) := by
  induction samples generalizing m with
  | nil => simp
  | cons s rest ih =>
    rw [List.foldl_cons, ih]
    by_cases hd : s.date = d
    · simp only [List.filter_cons, hd, beq_self_eq_true, if_true,
        List.isEmpty_cons, lookupBucket_insert, if_pos hd]
      by_cases he : (rest.filter (fun s => s.date == d)).isEmpty
      · simp [he, List.isEmpty_iff.mp he]
      · simp [he, List.foldl_cons]
    · have hbeq : (s.date == d) = false := by simp [hd]
      simp only [List.filter_cons, hbeq, if_false, lookupBucket_insert, if_neg hd]
      rfl

/-- The fields of a `bucketAppend` fold: each of the five lists is the
corresponding per-sample projection, behind the initial bucket's lists. -/
theorem foldl_bucketAppend_fields (ss : List OwmSample) (b : OwmBucket) :
    ss.foldl bucketAppend b =
      ⟨b.temps ++ ss.map OwmSample.temp,
       b.conditions ++ ss.map OwmSample.condMain,
       b.humidity ++ ss.map OwmSample.humidity,
       b.windSpeed ++ ss.map (fun s => s.windSpeed * 3.6),
       b.precipitation ++ ss.map (fun s => s.rain3h + s.snow3h)⟩ := by
  induction ss generalizing b with
  | nil => simp
  | cons s rest ih =>
    rw [List.foldl_cons, ih]
    simp [bucketAppend]

/-- Claim C4: in the secondary tier, day `i` of the produced forecast reduces
the bucket of the samples sharing the calendar date `today + i` exactly as the
claim states — high = max, low = min, humidity = mean, wind = mean of the
m/s→km/h converted speeds, condition = normalized mode,
precipitation probability = `min(round(total*20), 100)` when the total
precipitation is positive else 20, suitable = dominant in {Clear, Clouds} and
total < 1 — and a date with no samples gets the fixed defaults
(22/15/60/10/20/suitable). -/
theorem C4_owm_bucket_reduction (env : WeatherEnv) (samples : List OwmSample)
    (lat lon : ℚ) (days i : Nat)
    (hcall : env.owmCall = Except.ok samples) (hi : i < days) :
    ∃ r, getWeatherFromOpenweathermap env lat lon days = Except.ok r ∧
      r.status = "success" ∧
      ∃ e, r.forecast[i]? = some e ∧
        ∀ ss, samples.filter (fun s => s.date == env.today + i) = ss →
          (ss ≠ [] →
            e.tempHigh = pyRound (listMaxQ (ss.map OwmSample.temp)) ∧
            e.tempLow = pyRound (listMinQ (ss.map OwmSample.temp)) ∧
            e.humidity = pyRound (meanQ (ss.map OwmSample.humidity)) ∧
            e.windSpeed = pyRound (meanQ (ss.map (fun s => s.windSpeed * 3.6))) ∧
            e.condition = mapConditionToChinese (mainCondition (ss.map OwmSample.condMain)) ∧
            e.precipProb = (if 0 < sumQ (ss.map (fun s => s.rain3h + s.snow3h)) then
                min (pyRound (sumQ (ss.map (fun s => s.rain3h + s.snow3h)) * 20)) 100
              else 20) ∧
            e.suitableOutdoor = ((mainCondition (ss.map OwmSample.condMain) == "Clear"
                || mainCondition (ss.map OwmSample.condMain) == "Clouds")
              && decide (sumQ (ss.map (fun s => s.rain3h + s.snow3h)) < 1))) ∧
          (ss = [] →
            e.tempHigh = 22 ∧ e.tempLow = 15 ∧ e.humidity = 60 ∧
            e.windSpeed = 10 ∧ e.precipProb = 20 ∧
            e.suitableOutdoor = true ∧ e.condition = "多云") := by
  refine ⟨{ status := "success",
            forecast := (List.range days).map
              (owmDayFor samples env.today env.todayWeekday) },
          by simp [getWeatherFromOpenweathermap, hcall, Except.map], rfl,
          owmDayFor samples env.today env.todayWeekday i, ?_, ?_⟩
  · simp [List.getElem?_map, List.getElem?_range, hi]
  · intro ss hss
    constructor
    · intro hne
      have hlook : lookupBucket (buildBuckets samples) (env.today + i) =
          some (⟨ss.map OwmSample.temp, ss.map OwmSample.condMain,
                 ss.map OwmSample.humidity, ss.map (fun s => s.windSpeed * 3.6),
                 ss.map (fun s => s.rain3h + s.snow3h)⟩ : OwmBucket) := by
        unfold buildBuckets
        rw [lookupBucket_foldl, hss]
        have : ss.isEmpty = false := by
          cases ss with
          | nil => exact (hne rfl).elim
          | cons a l => rfl
        rw [this]
        simp [foldl_bucketAppend_fields, lookupBucket, emptyBucket]
      simp [owmDayFor, hlook, meanQ]
    · intro hempty
      have hlook : lookupBucket (buildBuckets samples) (env.today + i) = none := by
        unfold buildBuckets
        rw [lookupBucket_foldl, hss, hempty]
        simp [lookupBucket]
      simp [owmDayFor, hlook, pyRound22, pyRound15, pyRound60, pyRound10]

/-- Claim C4 witness: with the two same-date samples of `owmSamples`
(temps 10/21, conditions Clear/Clouds, humidity 40/60, wind 5/10 m/s,
3 mm total precipitation), day 0 of the produced forecast has
high 21, low 10, humidity 50, wind 27 km/h, condition 晴天,
precipitation probability 60 and is not outdoor-suitable. -/
theorem C4_witness :
    ∃ r, getWeatherFromOpenweathermap owmEnv 0 0 2 = Except.ok r ∧
      r.status = "success" ∧
      ∃ e, r.forecast[0]? = some e ∧
        e.tempHigh = 21 ∧ e.tempLow = 10 ∧ e.humidity = 50 ∧ e.windSpeed = 27 ∧
        e.condition = "晴天" ∧ e.precipProb = 60 ∧ e.suitableOutdoor = false := by
  obtain ⟨r, hr, hst, e, he, hmain⟩ :=
    C4_owm_bucket_reduction owmEnv owmSamples 0 0 2 0 rfl (by decide)
  obtain ⟨hne, -⟩ := hmain owmSamples rfl
  obtain ⟨h1, h2, h3, h4, h5, h6, h7⟩ := hne (by simp [owmSamples])
  have hmaps1 : owmSamples.map OwmSample.temp = [10, 21] := rfl
  have hmaps2 : owmSamples.map OwmSample.humidity = [40, 60] := rfl
  have hmaps3 : owmSamples.map (fun s => s.windSpeed * 3.6) = [5 * 3.6, 10 * 3.6] := rfl
  have hmaps4 : owmSamples.map OwmSample.condMain = ["Clear", "Clouds"] := rfl
  have hmaps5 : owmSamples.map (fun s => s.rain3h + s.snow3h) = [0 + 0, 2 + 1] := rfl
  have hsum3 : sumQ [(0 : ℚ) + 0, 2 + 1] = 3 := by norm_num [sumQ]
  refine ⟨r, hr, hst, e, he, ?_, ?_, ?_, ?_, ?_, ?_, ?_⟩
  · rw [h1, hmaps1, show listMaxQ [(10 : ℚ), 21] = max 10 21 from rfl,
      max_eq_right (by norm_num : (10 : ℚ) ≤ 21)]
    norm_num [pyRound]
  · rw [h2, hmaps1, show listMinQ [(10 : ℚ), 21] = min 10 21 from rfl,
      min_eq_left (by norm_num : (10 : ℚ) ≤ 21)]
    norm_num [pyRound]
  · rw [h3, hmaps2]
    norm_num [meanQ, sumQ, pyRound]
  · rw [h4, hmaps3]
    norm_num [meanQ, sumQ, pyRound]
  · rw [h5, hmaps4]
    decide
  · rw [h6, hmaps5, hsum3]
    rw [if_pos (by norm_num : (0 : ℚ) < 3)]
    have : pyRound ((3 : ℚ) * 20) = 60 := by norm_num [pyRound]
    rw [this]
    decide
  · rw [h7, hmaps4, hmaps5, hsum3,
      show mainCondition ["Clear", "Clouds"] = "Clear" from by decide,
      decide_eq_false (by norm_num : ¬ ((3 : ℚ) < 1))]
    rfl

/-! ## Claim C5: venues surface an explicit error without a credential -/

/-- Claim C5: when no places-provider credential is configured (tool context
and both environment variables empty), the venue search returns the explicit
error result — status "error", an empty venue list, and a human-readable
message — with no fallback venues. -/
theorem C5_venues_error_without_key (env : VenueEnv) (lat lon : ℚ)
    (sportType : String) (radius : ℤ) (maxResults : Nat)
    (hkey : effectiveVenueKey env = "") :
    searchNearbyVenues env lat lon sportType radius maxResults =
      { status := "error", venues := [], sportType := none, location := none,
        errorMessage := some "Google Maps API key not configured" } := by
  unfold searchNearbyVenues
  rw [if_pos hkey]

/-- Claim C5 witness: the concrete credential-free environment produces the
explicit error result. -/
theorem C5_witness :
    effectiveVenueKey venueEnvNoKey = "" ∧
    searchNearbyVenues venueEnvNoKey 40 (-73) "长跑" 2000 5 =
      { status := "error", venues := [], sportType := none, location := none,
        errorMessage := some "Google Maps API key not configured" } :=
  ⟨by decide, C5_venues_error_without_key venueEnvNoKey 40 (-73) "长跑" 2000 5 (by decide)⟩

/-! ## Stable sort lemmas (for claim C6) -/

theorem insertSorted_perm {α : Type} (le : α → α → Bool) (a : α) (l : List α) :
    (insertSorted le a l).Perm (a :: l) := by
  induction l with
  | nil => exact List.Perm.refl _
  | cons b bs ih =>
    unfold insertSorted
    by_cases h : le b a = true
    · rw [if_pos h]
      exact (ih.cons b).trans (List.Perm.swap a b bs)
    · rw [if_neg h]

theorem foldl_insertSorted_perm {α : Type} (le : α → α → Bool) :
    ∀ (l acc : List α), (l.foldl (fun acc x => insertSorted le x acc) acc).Perm (acc ++ l) := by
  intro l
  induction l with
  | nil => intro acc; simp
  | cons x xs ih =>
    intro acc
    rw [List.foldl_cons]
    refine (ih (insertSorted le x acc)).trans ?_
    have h1 : (insertSorted le x acc ++ xs).Perm ((x :: acc) ++ xs) :=
      (insertSorted_perm le x acc).append_right xs
    refine h1.trans ?_
    simpa using List.perm_middle.symm

/-- The stable sort is a permutation of its input. -/
theorem stableSort_perm {α : Type} (le : α → α → Bool) (l : List α) :
    (stableSort le l).Perm l := by
  simpa using foldl_insertSorted_perm le l []

theorem mem_insertSorted {α : Type} {le : α → α → Bool} {a x : α} {l : List α}
    (h : x ∈ insertSorted le a l) : x = a ∨ x ∈ l := by
  have := (insertSorted_perm le a l).mem_iff.mp h
  simpa using this

theorem insertSorted_pairwise {α : Type} {le : α → α → Bool}
    (htr : ∀ a b c, le a b = true → le b c = true → le a c = true)
    (htot : ∀ a b, le a b = true ∨ le b a = true) (a : α) :
    ∀ (l : List α), l.Pairwise (fun x y => le x y = true) →
      (insertSorted le a l).Pairwise (fun x y => le x y = true) := by
  intro l
  induction l with
  | nil =>
    intro _
    simp [insertSorted]
  | cons b bs ih =>
    intro hp
    rcases List.pairwise_cons.mp hp with ⟨hb, hbs⟩
    unfold insertSorted
    by_cases h : le b a = true
    · rw [if_pos h]
      refine List.pairwise_cons.mpr ⟨?_, ih hbs⟩
      intro x hx
      rcases mem_insertSorted hx with rfl | hx2
      · exact h
      · exact hb x hx2
    · rw [if_neg h]
      have hab : le a b = true := by
        rcases htot a b with hx | hx
        · exact hx
        · exact absurd hx h
      refine List.pairwise_cons.mpr ⟨?_, hp⟩
      intro x hx
      rcases List.mem_cons.mp hx with rfl | hx2
      · exact hab
      · exact htr a b x hab (hb x hx2)

theorem foldl_insertSorted_pairwise {α : Type} {le : α → α → Bool}
    (htr : ∀ a b c, le a b = true → le b c = true → le a c = true)
    (htot : ∀ a b, le a b = true ∨ le b a = true) :
    ∀ (l acc : List α), acc.Pairwise (fun x y => le x y = true) →
      (l.foldl (fun acc x => insertSorted le x acc) acc).Pairwise
        (fun x y => le x y = true) := by
  intro l
  induction l with
  | nil => intro acc h; simpa using h
  | cons x xs ih =>
    intro acc h
    rw [List.foldl_cons]
    exact ih _ (insertSorted_pairwise htr htot x acc h)

/-- The stable sort output is sorted whenever `le` is transitive and total. -/
theorem stableSort_pairwise {α : Type} {le : α → α → Bool}
    (htr : ∀ a b c, le a b = true → le b c = true → le a c = true)
    (htot : ∀ a b, le a b = true ∨ le b a = true) (l : List α) :
    (stableSort le l).Pairwise (fun x y => le x y = true) :=
  foldl_insertSorted_pairwise htr htot l [] List.Pairwise.nil

/-! ## Claim C6: deduplication, ordering and truncation of the venue search -/

theorem venueLE_iff (a b : Venue) :
    venueLE a b = true ↔
      (a.distanceMeters < b.distanceMeters ∨
        (a.distanceMeters = b.distanceMeters ∧ b.rating ≤ a.rating)) := by
  simp [venueLE, Bool.or_eq_true, Bool.and_eq_true, decide_eq_true_eq, beq_iff_eq]

theorem venueLE_total (a b : Venue) : venueLE a b = true ∨ venueLE b a = true := by
  rw [venueLE_iff, venueLE_iff]
  rcases lt_trichotomy a.distanceMeters b.distanceMeters with h | h | h
  · exact Or.inl (Or.inl h)
  · rcases le_total b.rating a.rating with hr | hr
    · exact Or.inl (Or.inr ⟨h, hr⟩)
    · exact Or.inr (Or.inr ⟨h.symm, hr⟩)
  · exact Or.inr (Or.inl h)

theorem venueLE_transitive (a b c : Venue) :
    venueLE a b = true → venueLE b c = true → venueLE a c = true := by
  rw [venueLE_iff, venueLE_iff, venueLE_iff]
  rintro (hab | ⟨hab, hr1⟩) (hbc | ⟨hbc, hr2⟩)
  · exact Or.inl (hab.trans hbc)
  · exact Or.inl (hbc ▸ hab)
  · exact Or.inl (hab ▸ hbc)
  · exact Or.inr ⟨hab.trans hbc, hr2.trans hr1⟩

theorem processPlace_placeId (lat lon : ℚ) (cd : ℚ → ℚ → ℚ → ℚ → ℚ) (p : Place) :
    (processPlace lat lon cd p).placeId = p.placeId := rfl

theorem contains_append_eq (l1 l2 : List String) (a : String) :
    (l1 ++ l2).contains a = (l1.contains a || l2.contains a) := by
  simp [List.contains]

theorem dedupSeen_cons (v : Venue) (l : List Venue) (seen : List String) :
    dedupSeen (v :: l) seen =
      if seen.contains v.placeId then dedupSeen l seen
      else v :: dedupSeen l (seen ++ [v.placeId]) := rfl

theorem dedupSeen_append (xs ys : List Venue) (seen : List String) :
    dedupSeen (xs ++ ys) seen =
      dedupSeen xs seen
        ++ dedupSeen ys (seen ++ (dedupSeen xs seen).map Venue.placeId) := by
  induction xs generalizing seen with
  | nil => simp [dedupSeen]
  | cons v vs ih =>
    rw [List.cons_append, dedupSeen_cons, dedupSeen_cons]
    cases hc : seen.contains v.placeId
    · rw [if_neg (by simp [hc]), if_neg (by simp [hc]), ih]
      simp only [List.cons_append, List.map_cons]
      rw [List.append_cons seen v.placeId
        (List.map Venue.placeId (dedupSeen vs (seen ++ [v.placeId])))]
    · rw [if_pos (by simp [hc]), if_pos (by simp [hc])]
      exact ih seen

/-- The category-search loop body characterized: processing one category's
places extends the venue list with the first-occurrence deduplication of the
category's processed stream, and the seen set with the added ids. -/
theorem addPlaces_spec (lat lon : ℚ) (cd : ℚ → ℚ → ℚ → ℚ → ℚ) :
    ∀ (places : List Place) (vs : List Venue) (seen : List String),
      addPlaces lat lon cd (vs, seen) places =
        (vs ++ dedupSeen ((places.filter (fun p => p.placeId ≠ "")).map
            (processPlace lat lon cd)) seen,
         seen ++ (dedupSeen ((places.filter (fun p => p.placeId ≠ "")).map
            (processPlace lat lon cd)) seen).map Venue.placeId) := by
  intro places
  induction places with
  | nil => intro vs seen; simp [addPlaces, dedupSeen]
  | cons p ps ih =>
    intro vs seen
    have hfold : addPlaces lat lon cd (vs, seen) (p :: ps) =
        addPlaces lat lon cd (addPlaceStep lat lon cd (vs, seen) p) ps := by
      simp only [addPlaces, List.foldl_cons]
    by_cases hid : p.placeId = ""
    · have hd : (decide (p.placeId ≠ "")) = false := by simp [hid]
      have hstep : addPlaceStep lat lon cd (vs, seen) p = (vs, seen) := by
        unfold addPlaceStep
        rw [hd, Bool.false_and]
        rfl
      rw [hfold, hstep, ih vs seen, List.filter_cons, hd]
      simp
    · have hd : (decide (p.placeId ≠ "")) = true := by simp [hid]
      cases hc : seen.contains p.placeId
      · have hstep : addPlaceStep lat lon cd (vs, seen) p =
            (vs ++ [processPlace lat lon cd p], seen ++ [p.placeId]) := by
          unfold addPlaceStep
          rw [hd, hc, Bool.not_false, Bool.true_and]
          rfl
        rw [hfold, hstep,
          ih (vs ++ [processPlace lat lon cd p]) (seen ++ [p.placeId]),
          List.filter_cons, hd]
        simp only [if_true, List.map_cons, dedupSeen_cons, processPlace_placeId,
          hc, Bool.false_eq_true, if_false]
        rw [List.append_cons seen p.placeId]
        simp [List.append_assoc]
      · have hstep : addPlaceStep lat lon cd (vs, seen) p = (vs, seen) := by
          unfold addPlaceStep
          rw [hd, hc, Bool.not_true, Bool.and_false]
          rfl
        rw [hfold, hstep, ih vs seen, List.filter_cons, hd]
        simp only [if_true, List.map_cons, dedupSeen_cons, processPlace_placeId,
          hc, if_true]

/-- The whole category loop characterized against the flattened venue stream. -/
theorem collect_loop_spec (env : VenueEnv) (lat lon : ℚ) :
    ∀ (types : List String) (vs : List Venue) (seen : List String),
      types.foldl (collectStep env lat lon) (vs, seen) =
        (vs ++ dedupSeen (venueStream env lat lon types) seen,
         seen ++ (dedupSeen (venueStream env lat lon types) seen).map Venue.placeId) := by
  intro types
  induction types with
  | nil => intro vs seen; simp [venueStream, dedupSeen]
  | cons pt rest ih =>
    intro vs seen
    rw [List.foldl_cons]
    cases hcall : env.placesCall pt with
    | ok places =>
      have hstep : collectStep env lat lon (vs, seen) pt =
          addPlaces lat lon env.calcDist (vs, seen) places := by
        unfold collectStep
        rw [hcall]
      rw [hstep, addPlaces_spec, ih]
      have hv : venueStream env lat lon (pt :: rest) =
          (places.filter (fun p => p.placeId ≠ "")).map
              (processPlace lat lon env.calcDist)
            ++ venueStream env lat lon rest := by
        simp only [venueStream, hcall]
      rw [hv, dedupSeen_append]
      simp [List.append_assoc]
    | error e =>
      have hstep : collectStep env lat lon (vs, seen) pt = (vs, seen) := by
        unfold collectStep
        rw [hcall]
      rw [hstep, ih]
      simp only [venueStream, hcall, List.nil_append]

/-- The accumulated venue list is exactly the first-occurrence deduplication
of the venue stream. -/
theorem collectVenues_eq (env : VenueEnv) (lat lon : ℚ) (types : List String) :
    collectVenues env lat lon types =
      dedupSeen (venueStream env lat lon types) [] := by
  unfold collectVenues
  rw [collect_loop_spec]
  simp

theorem dedupSeen_not_seen :
    ∀ (l : List Venue) (seen : List String), ∀ v ∈ dedupSeen l seen,
      seen.contains v.placeId = false := by
  intro l
  induction l with
  | nil => intro seen v hv; simp [dedupSeen] at hv
  | cons u us ih =>
    intro seen v hv
    by_cases hc : seen.contains u.placeId
    · rw [dedupSeen, if_pos hc] at hv
      exact ih seen v hv
    · rw [dedupSeen, if_neg hc] at hv
      rcases List.mem_cons.mp hv with rfl | hv2
      · simpa using hc
      · have := ih (seen ++ [u.placeId]) v hv2
        rw [contains_append_eq, Bool.or_eq_false_iff] at this
        exact this.1

theorem dedupSeen_ids_nodup :
    ∀ (l : List Venue) (seen : List String),
      ((dedupSeen l seen).map Venue.placeId).Nodup := by
  intro l
  induction l with
  | nil => intro seen; simp [dedupSeen]
  | cons u us ih =>
    intro seen
    by_cases hc : seen.contains u.placeId
    · rw [dedupSeen, if_pos hc]
      exact ih seen
    · rw [dedupSeen, if_neg hc]
      simp only [List.map_cons, List.nodup_cons]
      refine ⟨?_, ih (seen ++ [u.placeId])⟩
      intro hmem
      rcases List.mem_map.mp hmem with ⟨v, hv, hpid⟩
      have := dedupSeen_not_seen us (seen ++ [u.placeId]) v hv
      rw [contains_append_eq, Bool.or_eq_false_iff] at this
      have h2 := this.2
      simp [hpid] at h2

theorem dedupSeen_find_first :
    ∀ (l : List Venue) (seen : List String), ∀ v ∈ dedupSeen l seen,
      l.find? (fun u => u.placeId == v.placeId) = some v := by
  intro l
  induction l with
  | nil => intro seen v hv; simp [dedupSeen] at hv
  | cons u us ih =>
    intro seen v hv
    by_cases hc : seen.contains u.placeId
    · rw [dedupSeen, if_pos hc] at hv
      have hvnot := dedupSeen_not_seen us seen v hv
      have hne : (u.placeId == v.placeId) = false := by
        by_contra h
        rw [Bool.not_eq_false, beq_iff_eq] at h
        rw [← h] at hvnot
        rw [hvnot] at hc
        exact Bool.false_ne_true hc
      rw [List.find?_cons_of_neg _ (by simp [hne]), ih seen v hv]
    · rw [dedupSeen, if_neg hc] at hv
      rcases List.mem_cons.mp hv with rfl | hv2
      · exact List.find?_cons_of_pos _ (by simp)
      · have hvnot := dedupSeen_not_seen us (seen ++ [u.placeId]) v hv2
        rw [contains_append_eq, Bool.or_eq_false_iff] at hvnot
        have hne : (u.placeId == v.placeId) = false := by
          have h2 := hvnot.2
          by_contra h
          rw [Bool.not_eq_false, beq_iff_eq] at h
          simp [← h] at h2
        rw [List.find?_cons_of_neg _ (by simp [hne]),
          ih (seen ++ [u.placeId]) v hv2]

/-- The ordering scenario evaluated: for venues A (500 m, rating 4.0),
B (500 m, rating 4.5), C (300 m, rating 2.0) — with A returned again by a
second category and deduplicated — the returned order is [C, B, A]. -/
theorem venueOrderScenario :
    (searchNearbyVenues venueEnvC6 0 0 "长跑" 2000 5).venues.map Venue.placeId
      = ["C", "B", "A"] := by
  have hdmA : (processPlace 0 0 venueEnvC6.calcDist placeA).distanceMeters = 500 := by
    show pyRound (500 : ℚ) = 500
    norm_num [pyRound]
  have hdmB : (processPlace 0 0 venueEnvC6.calcDist placeB).distanceMeters = 500 := by
    show pyRound (500 : ℚ) = 500
    norm_num [pyRound]
  have hdmC : (processPlace 0 0 venueEnvC6.calcDist placeC).distanceMeters = 300 := by
    show pyRound (300 : ℚ) = 300
    norm_num [pyRound]
  have hrA : (processPlace 0 0 venueEnvC6.calcDist placeA).rating = 4 := rfl
  have hrB : (processPlace 0 0 venueEnvC6.calcDist placeB).rating = (4.5 : ℚ) := rfl
  have hAB : venueLE (processPlace 0 0 venueEnvC6.calcDist placeA)
      (processPlace 0 0 venueEnvC6.calcDist placeB) = false := by
    unfold venueLE
    rw [hdmA, hdmB, hrA, hrB]
    rw [decide_eq_false (by norm_num : ¬ ((500 : ℤ) < 500)),
        decide_eq_false (by norm_num : ¬ ((4.5 : ℚ) ≤ (4 : ℚ)))]
    rfl
  have hBC : venueLE (processPlace 0 0 venueEnvC6.calcDist placeB)
      (processPlace 0 0 venueEnvC6.calcDist placeC) = false := by
    unfold venueLE
    rw [hdmB, hdmC]
    rw [decide_eq_false (by norm_num : ¬ ((500 : ℤ) < 300)),
        show ((500 : ℤ) == 300) = false from by decide, Bool.false_and]
    rfl
  have hcollect : collectVenues venueEnvC6 0 0 (mapSportToPlaceTypes "长跑") =
      [processPlace 0 0 venueEnvC6.calcDist placeA,
       processPlace 0 0 venueEnvC6.calcDist placeB,
       processPlace 0 0 venueEnvC6.calcDist placeC] := rfl
  have hsort : stableSort venueLE
      [processPlace 0 0 venueEnvC6.calcDist placeA,
       processPlace 0 0 venueEnvC6.calcDist placeB,
       processPlace 0 0 venueEnvC6.calcDist placeC] =
      [processPlace 0 0 venueEnvC6.calcDist placeC,
       processPlace 0 0 venueEnvC6.calcDist placeB,
       processPlace 0 0 venueEnvC6.calcDist placeA] := by
    unfold stableSort
    simp only [List.foldl_cons, List.foldl_nil]
    simp only [insertSorted, hAB, hBC, Bool.false_eq_true, if_false]
  have hfinal : (searchNearbyVenues venueEnvC6 0 0 "长跑" 2000 5).venues =
      (stableSort venueLE
        (collectVenues venueEnvC6 0 0 (mapSportToPlaceTypes "长跑"))).take 5 := rfl
  rw [hfinal, hcollect, hsort]
  rfl

/-- Claim C6: the venue list returned by the search contains each place id at
most once — with the first occurrence across the ordered category searches
winning, expressed by `find?` over the raw venue stream — is sorted by the
`(distance ascending, rating descending)` key, is truncated to `maxResults`,
and on the concrete A/B/C scenario the order is [C, B, A]. -/
theorem C6_venue_ordering (env : VenueEnv) (lat lon : ℚ) (sportType : String)
    (radius : ℤ) (maxResults : Nat) :
    ((searchNearbyVenues env lat lon sportType radius maxResults).venues.map
        Venue.placeId).Nodup ∧
    ((searchNearbyVenues env lat lon sportType radius maxResults).venues).Pairwise
      (fun a b => venueLE a b = true) ∧
    (searchNearbyVenues env lat lon sportType radius maxResults).venues.length
      ≤ maxResults ∧
    (∀ v ∈ (searchNearbyVenues env lat lon sportType radius maxResults).venues,
      (venueStream env lat lon (mapSportToPlaceTypes sportType)).find?
        (fun u => u.placeId == v.placeId) = some v) ∧
    (searchNearbyVenues venueEnvC6 0 0 "长跑" 2000 5).venues.map Venue.placeId
      = ["C", "B", "A"] := by
  by_cases hkey : effectiveVenueKey env = ""
  · have hv : (searchNearbyVenues env lat lon sportType radius maxResults).venues = [] := by
      unfold searchNearbyVenues
      rw [if_pos hkey]
    rw [hv]
    exact ⟨by simp, by simp, by simp, by simp, venueOrderScenario⟩
  · cases hce : env.clientError with
    | some msg =>
      have hv : (searchNearbyVenues env lat lon sportType radius maxResults).venues = [] := by
        unfold searchNearbyVenues
        rw [if_neg hkey, hce]
      rw [hv]
      exact ⟨by simp, by simp, by simp, by simp, venueOrderScenario⟩
    | none =>
      have hv : (searchNearbyVenues env lat lon sportType radius maxResults).venues =
          (stableSort venueLE
            (collectVenues env lat lon (mapSportToPlaceTypes sportType))).take
            maxResults := by
        unfold searchNearbyVenues
        rw [if_neg hkey, hce]
      rw [hv]
      have hc := collectVenues_eq env lat lon (mapSportToPlaceTypes sportType)
      have hperm : (stableSort venueLE
          (collectVenues env lat lon (mapSportToPlaceTypes sportType))).Perm
          (collectVenues env lat lon (mapSportToPlaceTypes sportType)) :=
        stableSort_perm _ _
      refine ⟨?_, ?_, ?_, ?_, venueOrderScenario⟩
      · have h1 : ((collectVenues env lat lon
            (mapSportToPlaceTypes sportType)).map Venue.placeId).Nodup := by
          rw [hc]
          exact dedupSeen_ids_nodup _ _
        have h2 := (hperm.map Venue.placeId).symm.nodup h1
        exact List.Nodup.sublist
          (List.Sublist.map Venue.placeId (List.take_sublist _ _)) h2
      · exact List.Pairwise.sublist (List.take_sublist _ _)
          (stableSort_pairwise venueLE_transitive venueLE_total _)
      · exact List.length_take_le _ _
      · intro v hvv
        have hv2 : v ∈ stableSort venueLE
            (collectVenues env lat lon (mapSportToPlaceTypes sportType)) :=
          (List.take_sublist _ _).subset hvv
        have hv3 : v ∈ collectVenues env lat lon (mapSportToPlaceTypes sportType) :=
          hperm.mem_iff.mp hv2
        rw [hc] at hv3
        exact dedupSeen_find_first _ [] v hv3


/-- Claim C6 witness: on the concrete scenario the id list is duplicate-free,
at most 5 venues are returned in the order [C, B, A], and the venue returned
for id "C" is the first occurrence of that id in the category stream. -/
theorem C6_witness :
    ((searchNearbyVenues venueEnvC6 0 0 "长跑" 2000 5).venues.map
        Venue.placeId).Nodup ∧
    (searchNearbyVenues venueEnvC6 0 0 "长跑" 2000 5).venues.length ≤ 5 ∧
    (searchNearbyVenues venueEnvC6 0 0 "长跑" 2000 5).venues.map Venue.placeId
      = ["C", "B", "A"] ∧
    ∃ v ∈ (searchNearbyVenues venueEnvC6 0 0 "长跑" 2000 5).venues,
      v.placeId = "C" ∧
      (venueStream venueEnvC6 0 0 (mapSportToPlaceTypes "长跑")).find?
        (fun u => u.placeId == v.placeId) = some v := by
  obtain ⟨h1, h2, h3, h4, h5⟩ := C6_venue_ordering venueEnvC6 0 0 "长跑" 2000 5
  have hC : "C" ∈ (searchNearbyVenues venueEnvC6 0 0 "长跑" 2000 5).venues.map
      Venue.placeId := by
    rw [h5]
    exact List.mem_cons_self _ _
  rcases List.mem_map.mp hC with ⟨v, hv, hvid⟩
  exact ⟨h1, h3, h5, v, hv, hvid, h4 v hv⟩

end TrainingRec
